import Mathlib

set_option maxRecDepth 16384

/-
Shallow embedding of `src/calibre/server.py`: a single-file HTTP service that
accepts `POST /convert` uploads, shells out to an external `ebook-convert`
executable inside a fresh temporary directory, and streams the produced file
back, plus a `GET /health` liveness route.

Modelling conventions:
- Bytes are `Nat`; byte strings are `List Nat`.
- The network input stream (`self.rfile`) is modelled by the request's
  `bodyData` (the bytes the client will ever deliver) together with a
  `readSched` list: the i-th call to `rfile.read(k)` yields
  `min k (readSched i)` of the remaining bytes (a socket read may return
  fewer bytes than requested; an empty result means end of stream).
- The filesystem and the subprocess are oracles packaged in `World`:
  what `subprocess.run` would do (`proc`), and whether/with which bytes the
  converter populated the output path (`outputExists`, `outputBytes`;
  `os.path.getsize` is `outputBytes.length`).
- Each response goes through `mkResponse`, the embedding of `_set_headers`
  followed by the `wfile.write` calls; an uncaught Python exception escaping
  `do_POST` is the `HandlerOutcome.exn` constructor.
- Python's `with tempfile.TemporaryDirectory()` statement runs the
  directory's removal on every way control leaves the block; the `Trace`
  returned alongside the outcome records directory creation/removal, the
  `subprocess.run` argv and timeout actually used, and the input file that
  was written. Temporary-directory path prefixes are abstracted away: file
  names stand for the tmpdir-relative paths.
- `parse_qs`'s percent-decoding is not modelled (no claim depends on the
  content of the format tokens beyond defaults and lower-casing); splitting
  on `&` and on the first `=`, dropping blank values, is modelled.
- Python `int()` underscore grouping is not modelled; sign, surrounding
  whitespace and decimal digits are.
-/

namespace CalibreSvc

/-! Character-list primitives standing in for the Python string operations
the handler uses (`str.lower`, `str.strip`, `str.startswith`, splitting).
They are structurally recursive so that the kernel can evaluate them on
concrete inputs. -/

/-- ASCII lower-casing of one character, as `str.lower()` does per
character for the ASCII range the format tokens live in. -/
def lowerChar (c : Char) : Char :=
  if 'A' ≤ c ∧ c ≤ 'Z' then Char.ofNat (c.toNat + 32) else c

/-- Python `s.lower()`. -/
def pyLower (s : String) : String :=
  String.mk (s.toList.map lowerChar)

/-- Whitespace test used by Python's `int()` argument stripping. -/
def isSpaceChar (c : Char) : Bool :=
  c = ' ' ∨ c = '\t' ∨ c = '\n' ∨ c = '\r'

/-- Strip surrounding whitespace, as `int()` does to its string argument. -/
def pyStrip (s : String) : String :=
  String.mk (((s.toList.dropWhile isSpaceChar).reverse.dropWhile isSpaceChar).reverse)

/-- Python `s.startswith(p)`. -/
def listIsPre : List Char → List Char → Bool
  | [], _ => true
  | _ :: _, [] => false
  | x :: xs, y :: ys => x = y && listIsPre xs ys

/-- Python `s.startswith(p)` on strings. -/
def pyStartsWith (s p : String) : Bool :=
  listIsPre p.toList s.toList

/-- Split a character list at the first occurrence of `c`; `none` when `c`
does not occur. -/
def splitAtFirst (c : Char) : List Char → Option (List Char × List Char)
  | [] => none
  | x :: xs =>
    if x = c then some ([], xs)
    else (splitAtFirst c xs).map (fun p => (x :: p.1, p.2))

/-- Split a character list at every occurrence of `c`. -/
def splitAllChar (c : Char) : List Char → List (List Char)
  | [] => [[]]
  | x :: xs =>
    match splitAllChar c xs with
    | [] => [[x]]
    | h :: t => if x = c then [] :: h :: t else (x :: h) :: t

/-- Numeric value of a list of decimal digit characters. -/
def digitsVal (cs : List Char) : Nat :=
  cs.foldl (fun a c => a * 10 + (c.toNat - 48)) 0

/-- Python `int(s)` for a string: strip surrounding whitespace, optional
sign, then decimal digits; `none` models the `ValueError` it raises.
Underscore digit grouping is not modelled. -/
def pyInt (s : String) : Option Int :=
  match (pyStrip s).toList with
  | [] => none
  | '+' :: rest =>
      if rest ≠ [] ∧ rest.all Char.isDigit then some (digitsVal rest : Int) else none
  | '-' :: rest =>
      if rest ≠ [] ∧ rest.all Char.isDigit then some (-(digitsVal rest : Int)) else none
  | cs =>
      if cs.all Char.isDigit then some (digitsVal cs : Int) else none

/-- Python `os.environ.get(k, d)` over an association-list environment
(case-sensitive). -/
def envGet (env : List (String × String)) (k d : String) : String :=
  ((env.find? (fun kv => kv.1 = k)).map Prod.snd).getD d

/-- Case-insensitive header lookup, as `self.headers.get(k)` does for HTTP
header names. -/
def headerLookup (hs : List (String × String)) (k : String) : Option String :=
  (hs.find? (fun kv => pyLower kv.1 = pyLower k)).map Prod.snd

/-- Python `self.headers.get(k, d)`. -/
def headerGet (hs : List (String × String)) (k d : String) : String :=
  (headerLookup hs k).getD d

/-- Split a request target at the first `?` into path and query, as
`urlparse` does for the components the handler uses. -/
def splitPathQuery (s : String) : String × String :=
  match splitAtFirst '?' s.toList with
  | none => (s, "")
  | some (p, q) => (String.mk p, String.mk q)

/-- Query-string pairs as `parse_qs` produces them: split on `&`, each item
on its first `=`, dropping items with a blank value (`keep_blank_values`
defaults to false). Percent-decoding is not modelled. -/
def parseQsPairs (q : String) : List (String × String) :=
  (splitAllChar '&' q.toList).filterMap (fun part =>
    match splitAtFirst '=' part with
    | none => none
    | some (k, v) =>
        if v = [] then none else some (String.mk k, String.mk v))

/-- First query value for a key, or `none`: `qs.get(k, [d])[0]` without the
default applied yet. -/
def qsFirst (pairs : List (String × String)) (k : String) : Option String :=
  (pairs.find? (fun kv => kv.1 = k)).map Prod.snd

/-- The expression `(qs.get(k, [d])[0] or d).lower()` from lines 40-41. -/
def fmtParam (query k d : String) : String :=
  let v := (qsFirst (parseQsPairs query) k).getD d
  pyLower (if v = "" then d else v)

/-- One HTTP request as the handler sees it. -/
structure Request where
  path : String
  headers : List (String × String)
  bodyData : List Nat
  readSched : List Nat

/-- What `subprocess.run(cmd, ..., timeout=..., check=False)` does: return
normally with an exit code and captured stderr (decoded text), raise
`TimeoutExpired`, or raise some other exception while launching. -/
inductive ProcOutcome where
  | completed (returncode : Int) (stderrText : String)
  | timedOut
  | launchFailure (msg : String)

/-- The oracle for the subprocess and the converter's output file. -/
structure World where
  proc : ProcOutcome
  outputExists : Bool
  outputBytes : List Nat

/-- Bytes written to `self.wfile`: a single text write (error/plain bodies)
or the sequence of chunk writes of the streaming loop. -/
inductive Body where
  | text (s : String)
  | chunked (chunks : List (List Nat))

/-- One HTTP response: status and the headers `_set_headers` sends, plus the
body writes. -/
structure HttpResponse where
  status : Nat
  contentType : String
  cacheControl : String
  body : Body

/-- Result of running a `do_GET`/`do_POST` method: either a response was
produced, or an exception escaped the method uncaught. -/
inductive HandlerOutcome where
  | response (r : HttpResponse)
  | exn (msg : String)

/-- Whether an outcome is an actual HTTP response. -/
def HandlerOutcome.isResponse : HandlerOutcome → Bool
  | .response _ => true
  | .exn _ => false

/-- Cache-Control header of the outcome's response, if any. -/
def HandlerOutcome.cacheControlOf : HandlerOutcome → Option String
  | .response r => some r.cacheControl
  | .exn _ => none

/-- Embedding of `_set_headers(code, content_type)` followed by writing the
body: every header block carries `Cache-Control: no-store` (line 17). -/
def mkResponse (code : Nat) (ct : String) (b : Body) : HttpResponse :=
  { status := code, contentType := ct, cacheControl := "no-store", body := b }

/-- Per-request resource/side-effect record. -/
structure Trace where
  tmpdirCreated : Bool
  tmpdirCleaned : Bool
  invokedCmd : Option (List String)
  timeoutUsed : Option Int
  inputFile : Option (String × List Nat)

/-- Trace of a request that never reaches the temporary-directory block. -/
def Trace.preDir : Trace :=
  ⟨false, false, none, none, none⟩

/-- Trace of a path inside the `with tempfile.TemporaryDirectory()` block:
the context manager removes the directory on every way control leaves the
block, so creation implies removal. -/
def dirTrace (cmd : Option (List String)) (t : Option Int)
    (f : String × List Nat) : Trace :=
  ⟨true, true, cmd, t, some f⟩

/-- The body-reading loop of lines 55-61: while bytes remain of the declared
length, `read(min(65536, remaining))`; an empty read breaks; each returned
chunk is appended to the input file. The schedule entry bounds how many
bytes this read returns. Returns the list of chunks written. -/
def readBodyLoop : List Nat → List Nat → Nat → List (List Nat)
  | [], _, _ => []
  | s :: rest, data, remaining =>
    if remaining = 0 then []
    else
      if (data.take (min (min 65536 remaining) s)).length = 0 then []
      else
        data.take (min (min 65536 remaining) s) ::
          readBodyLoop rest
            (data.drop (data.take (min (min 65536 remaining) s)).length)
            (remaining - (data.take (min (min 65536 remaining) s)).length)

/-- Fuel-indexed form of the output streaming loop; each iteration of the
loop removes at least one byte from the remaining file, so a fuel of the
file's length is always enough (see `streamFileAux_fuel_free`). -/
def streamFileAux : Nat → List Nat → List (List Nat)
  | _, [] => []
  | 0, _ :: _ => []
  | fuel + 1, b :: bs => (b :: bs).take 65536 :: streamFileAux fuel ((b :: bs).drop 65536)

/-- The output streaming loop of lines 90-95: `f.read(65536)` until an empty
read. Returns the chunks written to `wfile`. -/
def streamFile (bytes : List Nat) : List (List Nat) :=
  streamFileAux bytes.length bytes

/-- Route component of the request target, `urlparse(self.path).path`. -/
def reqRoute (req : Request) : String :=
  (splitPathQuery req.path).1

/-- The `source` token of line 40. -/
def sourceFmt (req : Request) : String :=
  fmtParam (splitPathQuery req.path).2 "from" "bin"

/-- The `target` token of line 41. -/
def targetFmt (req : Request) : String :=
  fmtParam (splitPathQuery req.path).2 "to" "epub"

/-- Line 44, `int(self.headers.get('Content-Length', '0'))`; `none` is the
uncaught `ValueError` on a non-numeric header value. -/
def contentLengthVal (req : Request) : Option Int :=
  pyInt (headerGet req.headers "Content-Length" "0")

/-- The timeout argument of line 66,
`int(os.environ.get('CALIBRE_CONVERSION_TIMEOUT', '180'))`, evaluated at
request time inside the `try` block. -/
def timeoutVal (env : List (String × String)) : Option Int :=
  pyInt (envGet env "CALIBRE_CONVERSION_TIMEOUT" "180")

/-- The converter executable of line 64,
`os.environ.get('CALIBRE_EBOOK_CONVERT', 'ebook-convert')`, read from the
environment at request time. -/
def converterExe (env : List (String × String)) : String :=
  envGet env "CALIBRE_EBOOK_CONVERT" "ebook-convert"

/-- Module-level line 10: `PORT = int(os.environ.get('CALIBRE_HTTP_PORT',
'7090'))`, evaluated once from the environment at process start. -/
def portOf (startupEnv : List (String × String)) : Option Int :=
  pyInt (envGet startupEnv "CALIBRE_HTTP_PORT" "7090")

/-- Character map of `.replace('\n', ' ')`. -/
def newlineToSpace (c : Char) : Char :=
  if c = '\n' then ' ' else c

/-- Lines 78-79: the JSON error field for a nonzero converter exit,
`'Converter failed: ' + err[:500].replace('\n', ' ')` where `err` is the
decoded stderr text. -/
def converterFailedMsg (stderrText : String) : String :=
  "Converter failed: " ++ String.mk ((stderrText.toList.take 500).map newlineToSpace)

/-- Embedding of `ConvertHandler.do_GET` (lines 24-30). -/
def doGet (path : String) : HttpResponse :=
  if pyStartsWith path "/health" then mkResponse 200 "text/plain" (.text "OK")
  else mkResponse 404 "text/plain" (.text "Not Found")

/-- Embedding of `ConvertHandler.do_POST` (lines 32-95), parametrised by the
request-time process environment and the subprocess/filesystem oracle. -/
def doPost (env : List (String × String)) (req : Request) (w : World) :
    HandlerOutcome × Trace :=
  if reqRoute req ≠ "/convert" then
    (.response (mkResponse 404 "text/plain" (.text "Not Found")), Trace.preDir)
  else
    match contentLengthVal req with
    | none => (.exn "ValueError: invalid literal for int() with base 10", Trace.preDir)
    | some contentLength =>
      if contentLength ≤ 0 then
        (.response (mkResponse 400 "application/json"
          (.text "\x7b\"error\":\"Missing request body\"\x7d")), Trace.preDir)
      else
        let inPath := "input." ++ sourceFmt req
        let outPath := "output." ++ targetFmt req
        let inputData := (readBodyLoop req.readSched req.bodyData contentLength.toNat).flatten
        let cmd := [converterExe env, inPath, outPath]
        match timeoutVal env with
        | none =>
            (.response (mkResponse 500 "application/json"
              (.text ("\x7b\"error\":\"Failed to start converter: invalid literal for int() with base 10\"\x7d"))),
             dirTrace none none (inPath, inputData))
        | some t =>
          match w.proc with
          | .timedOut =>
              (.response (mkResponse 504 "application/json"
                (.text "\x7b\"error\":\"Conversion timeout\"\x7d")),
               dirTrace (some cmd) (some t) (inPath, inputData))
          | .launchFailure msg =>
              (.response (mkResponse 500 "application/json"
                (.text ("\x7b\"error\":\"Failed to start converter: " ++ msg ++ "\"\x7d"))),
               dirTrace (some cmd) (some t) (inPath, inputData))
          | .completed rc stderrText =>
            if rc ≠ 0 then
              (.response (mkResponse 500 "application/json"
                (.text ("\x7b\"error\":\"" ++ converterFailedMsg stderrText ++ "\"\x7d"))),
               dirTrace (some cmd) (some t) (inPath, inputData))
            else if w.outputExists = false ∨ w.outputBytes.length = 0 then
              (.response (mkResponse 500 "application/json"
                (.text "\x7b\"error\":\"No output produced\"\x7d")),
               dirTrace (some cmd) (some t) (inPath, inputData))
            else
              (.response (mkResponse 200 "application/octet-stream"
                (.chunked (streamFile w.outputBytes))),
               dirTrace (some cmd) (some t) (inPath, inputData))

/-! Concrete fixtures used to instantiate the theorems below. -/

/-- Sample request: a well-formed conversion upload of three bytes. -/
def sampleReq : Request :=
  ⟨"/convert?from=txt&to=epub", [("Content-Length", "3")], [10, 20, 30], [65536, 65536]⟩

/-- Sample world: the converter succeeds and writes one byte of output. -/
def sampleWorld : World :=
  ⟨.completed 0 "", true, [9]⟩

/-- Sample world: the converter hits the wall-clock timeout. -/
def timeoutWorld : World :=
  ⟨.timedOut, false, []⟩

/-- Request with a non-numeric Content-Length header value. -/
def badLenReq : Request :=
  ⟨"/convert", [("Content-Length", "abc")], [], []⟩

/-- Request with no Content-Length header at all. -/
def noLenReq : Request :=
  ⟨"/convert", [], [], []⟩

/-- Request delivering a single byte. -/
def oneByteReq : Request :=
  ⟨"/convert", [("Content-Length", "1")], [7], [1]⟩

/-- A 500-character stderr text (all `a`). -/
def errA500 : String :=
  String.mk (List.replicate 500 'a')

/-- World where the converter exits 1 with a 500-character stderr. -/
def failWorld : World :=
  ⟨.completed 1 errA500, false, []⟩

/-- World where the converter exits 2 with a two-line stderr. -/
def nlWorld : World :=
  ⟨.completed 2 "boom\nsecond line", false, []⟩

/-! Helper lemmas about the two streaming loops. -/

/-- With fuel at least the file's length, the streamed chunks concatenate
back to the whole file. -/
theorem streamFileAux_flatten (fuel : Nat) (l : List Nat) (h : l.length ≤ fuel) :
    (streamFileAux fuel l).flatten = l := by
  induction fuel generalizing l with
  | zero =>
    cases l with
    | nil => rfl
    | cons b bs => simp at h
  | succ f ih =>
    cases l with
    | nil => rfl
    | cons b bs =>
      have hd : ((b :: bs).drop 65536).length ≤ f := by
        simp only [List.length_drop, List.length_cons] at h ⊢
        omega
      show ((b :: bs).take 65536 :: streamFileAux f ((b :: bs).drop 65536)).flatten = b :: bs
      rw [List.flatten_cons, ih _ hd, List.take_append_drop]

/-- Every chunk produced by the streaming loop has at most 65536 bytes. -/
theorem streamFileAux_chunk_le (fuel : Nat) (l : List Nat) :
    ∀ c ∈ streamFileAux fuel l, c.length ≤ 65536 := by
  induction fuel generalizing l with
  | zero => cases l <;> simp [streamFileAux]
  | succ f ih =>
    cases l with
    | nil => simp [streamFileAux]
    | cons b bs =>
      intro c hc
      rw [show streamFileAux (f + 1) (b :: bs)
            = (b :: bs).take 65536 :: streamFileAux f ((b :: bs).drop 65536) from rfl] at hc
      rcases List.mem_cons.mp hc with h | h
      · subst h
        rw [List.length_take]
        omega
      · exact ih _ c h

/-- The chunks the handler streams concatenate to exactly the output file's
bytes. -/
theorem streamFile_flatten (l : List Nat) : (streamFile l).flatten = l :=
  streamFileAux_flatten l.length l (Nat.le_refl _)

/-- Chunk-size bound for the response streaming loop. -/
theorem streamFile_chunk_le (l : List Nat) : ∀ c ∈ streamFile l, c.length ≤ 65536 :=
  streamFileAux_chunk_le l.length l

/-- A non-empty output file is streamed as at least one chunk. -/
theorem streamFile_ne_nil (l : List Nat) (h : l ≠ []) : streamFile l ≠ [] := by
  cases l with
  | nil => exact absurd rfl h
  | cons b bs => simp [streamFile, streamFileAux]

/-- Every chunk the body-reading loop writes has at most 65536 bytes. -/
theorem readBodyLoop_chunk_le (s : List Nat) (d : List Nat) (n : Nat) :
    ∀ c ∈ readBodyLoop s d n, c.length ≤ 65536 := by
  induction s generalizing d n with
  | nil => simp [readBodyLoop]
  | cons a tl ih =>
    intro c hc
    unfold readBodyLoop at hc
    split at hc
    · simp at hc
    · split at hc
      · simp at hc
      · rcases List.mem_cons.mp hc with h | h
        · subst h
          rw [List.length_take]
          omega
        · exact ih _ _ c h

/-- The bytes written to the input file are an initial segment of the bytes
the client delivers on the socket. -/
theorem readBodyLoop_flatten_pre (s : List Nat) (d : List Nat) (n : Nat) :
    ∃ rest, (readBodyLoop s d n).flatten ++ rest = d := by
  induction s generalizing d n with
  | nil => exact ⟨d, by simp [readBodyLoop]⟩
  | cons a tl ih =>
    unfold readBodyLoop
    split
    · exact ⟨d, by simp⟩
    · split
      · exact ⟨d, by simp⟩
      · obtain ⟨r, hr⟩ :=
          ih (d.drop (d.take (min (min 65536 n) a)).length)
             (n - (d.take (min (min 65536 n) a)).length)
        refine ⟨r, ?_⟩
        rw [List.flatten_cons, List.append_assoc, hr]
        have : d.take (min (min 65536 n) a)
            = d.take ((d.take (min (min 65536 n) a)).length) := by
          rw [List.length_take]
          rcases Nat.le_total (min (min 65536 n) a) d.length with h | h
          · rw [Nat.min_eq_left h]
          · rw [Nat.min_eq_right h, List.take_length, List.take_of_length_le h]
        nth_rewrite 1 [this]
        rw [List.take_append_drop]

/-- The loop never writes more than the declared content length. -/
theorem readBodyLoop_flatten_len (s : List Nat) (d : List Nat) (n : Nat) :
    (readBodyLoop s d n).flatten.length ≤ n := by
  induction s generalizing d n with
  | nil => simp [readBodyLoop]
  | cons a tl ih =>
    unfold readBodyLoop
    split
    · simp
    · split
      · simp
      · rw [List.flatten_cons, List.length_append]
        have h1 : (d.take (min (min 65536 n) a)).length ≤ n := by
          rw [List.length_take]; omega
        have h2 := ih (d.drop (d.take (min (min 65536 n) a)).length)
          (n - (d.take (min (min 65536 n) a)).length)
        omega

/-- When the socket always delivers as much as requested and enough bytes
and reads are available, the loop writes exactly the first `n` delivered
bytes. -/
theorem readBodyLoop_complete (s : List Nat) (d : List Nat) (n : Nat)
    (hs : ∀ x ∈ s, 65536 ≤ x) (hd : n ≤ d.length) (hn : n ≤ 65536 * s.length) :
    (readBodyLoop s d n).flatten = d.take n := by
  induction s generalizing d n with
  | nil =>
    simp at hn
    subst hn
    simp [readBodyLoop]
  | cons a tl ih =>
    unfold readBodyLoop
    split
    · rename_i h0
      subst h0
      simp
    · rename_i h0
      have ha : 65536 ≤ a := hs a (List.mem_cons_self a tl)
      have hmin : min (min 65536 n) a = min 65536 n := by omega
      have hlen : (d.take (min (min 65536 n) a)).length = min 65536 n := by
        rw [List.length_take]
        omega
      split
      · rename_i hz
        rw [hlen] at hz
        omega
      · rw [List.flatten_cons, hlen]
        have htl : ∀ x ∈ tl, 65536 ≤ x := fun x hx => hs x (List.mem_cons_of_mem a hx)
        have hd2 : n - min 65536 n ≤ (d.drop (min 65536 n)).length := by
          rw [List.length_drop]
          omega
        have hn2 : n - min 65536 n ≤ 65536 * tl.length := by
          simp only [List.length_cons] at hn
          omega
        rw [ih (d.drop (min 65536 n)) (n - min 65536 n) htl hd2 hn2]
        rw [hmin]
        have : d.take (min 65536 n) = d.take (min 65536 n) := rfl
        rw [← List.take_add]
        congr 1
        omega

/-! Lemmas about the converter-failure message. -/

/-- The newline-to-space map never outputs a newline. -/
theorem newlineToSpace_ne (x : Char) : newlineToSpace x ≠ '\n' := by
  unfold newlineToSpace
  split
  · decide
  · assumption

/-- Length of the converter-failure error field: the 18-character prefix
plus at most 500 characters of stderr. -/
theorem converterFailedMsg_len (es : String) :
    (converterFailedMsg es).length = 18 + min 500 es.toList.length := by
  unfold converterFailedMsg
  rw [String.length_append]
  have h1 : ("Converter failed: ").length = 18 := rfl
  have h2 : (String.mk ((es.toList.take 500).map newlineToSpace)).length
      = ((es.toList.take 500).map newlineToSpace).length := rfl
  rw [h1, h2, List.length_map, List.length_take]

/-- The converter-failure error field contains no newline character. -/
theorem converterFailedMsg_no_nl (es : String) :
    ∀ c ∈ (converterFailedMsg es).toList, c ≠ '\n' := by
  intro c hc
  unfold converterFailedMsg at hc
  rw [show ("Converter failed: " ++ String.mk ((es.toList.take 500).map newlineToSpace)).toList
        = ("Converter failed: ").toList ++ (es.toList.take 500).map newlineToSpace from rfl] at hc
  rcases List.mem_append.mp hc with h | h
  · have hall : ∀ x ∈ ("Converter failed: ").toList, x ≠ '\n' := by decide
    exact hall c h
  · obtain ⟨x, _, hx⟩ := List.mem_map.mp h
    rw [← hx]
    exact newlineToSpace_ne x

/-! Claim theorems. -/

/-- C2: for every `POST /convert` request that creates a temporary
directory, the directory and its contents are removed before the handler
returns, on every exit path (success, launch failure, nonzero exit,
empty/missing output, timeout): the `with tempfile.TemporaryDirectory()`
block runs the removal on every way control leaves it. -/
theorem c2_tmpdir_always_cleaned (env : List (String × String)) (req : Request)
    (w : World) :
    (doPost env req w).2.tmpdirCreated = true →
    (doPost env req w).2.tmpdirCleaned = true := by
  unfold doPost
  repeat' split
  all_goals simp [Trace.preDir, dirTrace]

/-- C2 witness: the cleanup theorem applied to a concrete timed-out
request. -/
theorem c2_witness :
    (doPost [] sampleReq timeoutWorld).2.tmpdirCreated = true
    ∧ (doPost [] sampleReq timeoutWorld).2.tmpdirCleaned = true :=
  ⟨by decide, c2_tmpdir_always_cleaned [] sampleReq timeoutWorld (by decide)⟩

/-- C4 counterexample: a `POST /convert` whose Content-Length is the
non-numeric `abc` makes line 44's `int()` raise an uncaught `ValueError`,
so the handler produces no HTTP response at all for that request. -/
theorem c4_counterexample :
    (doPost [] badLenReq sampleWorld).1.isResponse = false := by
  decide

/-- C4 (amended): whenever the Content-Length header value parses as an
integer — in particular whenever the header is absent, since the default is
`'0'` — every failure inside `do_POST` is caught and converted into a
response with a status code; but a malformed (non-numeric) Content-Length
value escapes the handler as an uncaught exception with no response. -/
theorem c4_amended (env : List (String × String)) (req : Request) (w : World)
    (n : Int) (hcl : contentLengthVal req = some n) :
    (doPost env req w).1.isResponse = true := by
  unfold doPost
  rw [hcl]
  repeat' split
  all_goals first
    | rfl
    | simp_all

/-- C4 witness: a request with no Content-Length header still always gets a
response. -/
theorem c4_witness :
    contentLengthVal noLenReq = some 0
    ∧ (doPost [] noLenReq sampleWorld).1.isResponse = true :=
  ⟨by decide, c4_amended [] noLenReq sampleWorld 0 (by decide)⟩

/-- C5: a `POST /convert` whose declared content length is ≤ 0 — which
includes an absent Content-Length header, defaulted to `'0'` — gets
`400 Bad Request` with body `{"error":"Missing request body"}`, creates no
temporary directory and never invokes the converter. -/
theorem c5_missing_body_400 (env : List (String × String)) (req : Request)
    (w : World) (n : Int)
    (hroute : reqRoute req = "/convert")
    (hcl : contentLengthVal req = some n) (hle : n ≤ 0) :
    (doPost env req w).1 = .response (mkResponse 400 "application/json"
        (.text "\x7b\"error\":\"Missing request body\"\x7d"))
    ∧ (doPost env req w).2.tmpdirCreated = false
    ∧ (doPost env req w).2.invokedCmd = none
    ∧ (headerLookup req.headers "Content-Length" = none → n = 0) := by
  have hr : ¬ reqRoute req ≠ "/convert" := by simp [hroute]
  refine ⟨?_, ?_, ?_, ?_⟩
  · simp only [doPost, if_neg hr, hcl, if_pos hle]
  · simp only [doPost, if_neg hr, hcl, if_pos hle, Trace.preDir]
  · simp only [doPost, if_neg hr, hcl, if_pos hle, Trace.preDir]
  · intro habs
    unfold contentLengthVal headerGet at hcl
    rw [habs] at hcl
    have : pyInt ((none : Option String).getD "0") = some (0 : Int) := by decide
    rw [this] at hcl
    exact (Option.some.inj hcl).symm

/-- C5 witness: the 400 theorem applied to a request with no Content-Length
header. -/
theorem c5_witness :
    reqRoute noLenReq = "/convert"
    ∧ contentLengthVal noLenReq = some 0
    ∧ ((doPost [] noLenReq sampleWorld).1
        = .response (mkResponse 400 "application/json"
            (.text "\x7b\"error\":\"Missing request body\"\x7d"))
      ∧ (doPost [] noLenReq sampleWorld).2.tmpdirCreated = false
      ∧ (doPost [] noLenReq sampleWorld).2.invokedCmd = none
      ∧ (headerLookup noLenReq.headers "Content-Length" = none → (0 : Int) = 0)) :=
  ⟨by decide, by decide,
    c5_missing_body_400 [] noLenReq sampleWorld 0 (by decide) (by decide) (by decide)⟩

/-- C7 counterexample: `GET /healthzzz` is a path other than `/health`,
yet the handler answers `200` because line 25 tests
`self.path.startswith('/health')` rather than equality. -/
theorem c7_counterexample :
    (doGet "/healthzzz").status = 200 ∧ "/healthzzz" ≠ "/health" := by
  decide

/-- C7 (amended): a GET whose path starts with `/health` gets `200` with
plain-text body `OK`; a GET whose path does not start with `/health` gets
`404` with plain-text body `Not Found`. -/
theorem c7_amended (p : String) :
    (pyStartsWith p "/health" = true →
        doGet p = mkResponse 200 "text/plain" (.text "OK"))
    ∧ (pyStartsWith p "/health" = false →
        doGet p = mkResponse 404 "text/plain" (.text "Not Found")) := by
  constructor <;> intro h <;> simp [doGet, h]

/-- C7 witness: the amended theorem applied to the exact `/health` path. -/
theorem c7_witness :
    pyStartsWith "/health" "/health" = true
    ∧ doGet "/health" = mkResponse 200 "text/plain" (.text "OK") :=
  ⟨by decide, (c7_amended "/health").1 (by decide)⟩

/-- C10: every response the handler sends — the `200` success stream, the
health check, `404`s and all error bodies — carries
`Cache-Control: no-store`, because every path goes through `_set_headers`,
which always emits that header. -/
theorem c10_no_store_everywhere (env : List (String × String)) (req : Request)
    (w : World) (p : String) (r : HttpResponse) :
    (doGet p).cacheControl = "no-store"
    ∧ ((doPost env req w).1 = .response r → r.cacheControl = "no-store") := by
  constructor
  · unfold doGet
    split <;> rfl
  · intro h
    unfold doPost at h
    repeat' split at h
    all_goals first
      | (cases h; rfl)
      | (exact absurd h (by simp))

/-- C10 witness: instantiated at the health route and a successful
conversion. -/
theorem c10_witness :
    (doGet "/health").cacheControl = "no-store"
    ∧ ((doPost [] sampleReq sampleWorld).1
          = .response (mkResponse 200 "application/octet-stream"
              (.chunked (streamFile [9]))) →
        (mkResponse 200 "application/octet-stream"
            (.chunked (streamFile [9]))).cacheControl = "no-store") :=
  c10_no_store_everywhere [] sampleReq sampleWorld "/health"
    (mkResponse 200 "application/octet-stream" (.chunked (streamFile [9])))

/-- C1: for a `POST /convert` whose converter subprocess exits zero, a
present non-empty output file yields `200 OK` with content type
`application/octet-stream`, streaming exactly the output file's bytes in
chunks of at most 64 KiB as a non-empty body; a missing or zero-length
output file yields `500` with body `{"error":"No output produced"}`. -/
theorem c1_zero_exit_output (env : List (String × String)) (req : Request)
    (w : World) (n t : Int) (es : String)
    (hroute : reqRoute req = "/convert")
    (hcl : contentLengthVal req = some n) (hpos : 0 < n)
    (hto : timeoutVal env = some t)
    (hproc : w.proc = .completed 0 es) :
    (w.outputExists = true ∧ w.outputBytes ≠ [] →
      (doPost env req w).1 = .response (mkResponse 200 "application/octet-stream"
          (.chunked (streamFile w.outputBytes)))
      ∧ (streamFile w.outputBytes).flatten = w.outputBytes
      ∧ (∀ c ∈ streamFile w.outputBytes, c.length ≤ 65536)
      ∧ streamFile w.outputBytes ≠ [])
    ∧ ((w.outputExists = false ∨ w.outputBytes.length = 0) →
      (doPost env req w).1 = .response (mkResponse 500 "application/json"
          (.text "\x7b\"error\":\"No output produced\"\x7d"))) := by
  have hr : ¬ reqRoute req ≠ "/convert" := by simp [hroute]
  have hn : ¬ n ≤ 0 := by omega
  have h0 : ¬ ((0 : Int) ≠ 0) := by decide
  constructor
  · rintro ⟨he, hb⟩
    have hsz : ¬ (w.outputExists = false ∨ w.outputBytes.length = 0) := by
      simp [he, List.length_eq_zero, hb]
    refine ⟨?_, streamFile_flatten _, streamFile_chunk_le _, streamFile_ne_nil _ hb⟩
    simp only [doPost, if_neg hr, hcl, if_neg hn, hto, hproc, if_neg h0, if_neg hsz]
  · intro hsz
    simp only [doPost, if_neg hr, hcl, if_neg hn, hto, hproc, if_neg h0, if_pos hsz]

/-- C1 witness: a successful conversion of the sample request with a
one-byte output file. -/
theorem c1_witness :
    reqRoute sampleReq = "/convert"
    ∧ contentLengthVal sampleReq = some 3
    ∧ (0 : Int) < 3
    ∧ timeoutVal [] = some 180
    ∧ sampleWorld.proc = .completed 0 ""
    ∧ ((sampleWorld.outputExists = true ∧ sampleWorld.outputBytes ≠ [] →
        (doPost [] sampleReq sampleWorld).1
          = .response (mkResponse 200 "application/octet-stream"
              (.chunked (streamFile sampleWorld.outputBytes)))
        ∧ (streamFile sampleWorld.outputBytes).flatten = sampleWorld.outputBytes
        ∧ (∀ c ∈ streamFile sampleWorld.outputBytes, c.length ≤ 65536)
        ∧ streamFile sampleWorld.outputBytes ≠ [])
      ∧ ((sampleWorld.outputExists = false ∨ sampleWorld.outputBytes.length = 0) →
        (doPost [] sampleReq sampleWorld).1
          = .response (mkResponse 500 "application/json"
              (.text "\x7b\"error\":\"No output produced\"\x7d")))) :=
  ⟨by decide, by decide, by decide, by decide, rfl,
    c1_zero_exit_output [] sampleReq sampleWorld 3 180 "" (by decide) (by decide)
      (by decide) (by decide) rfl⟩

/-- C3: the subprocess wait uses the wall-clock timeout read from the
environment (default 180 seconds); when it expires the handler answers
`504 Gateway Timeout` with body `{"error":"Conversion timeout"}` and still
performs the temporary-directory cleanup. -/
theorem c3_timeout_504 (env : List (String × String)) (req : Request)
    (w : World) (n t : Int)
    (hroute : reqRoute req = "/convert")
    (hcl : contentLengthVal req = some n) (hpos : 0 < n)
    (hto : timeoutVal env = some t)
    (hproc : w.proc = .timedOut) :
    (doPost env req w).1 = .response (mkResponse 504 "application/json"
        (.text "\x7b\"error\":\"Conversion timeout\"\x7d"))
    ∧ (doPost env req w).2.timeoutUsed = some t
    ∧ (doPost env req w).2.tmpdirCleaned = true
    ∧ (envGet env "CALIBRE_CONVERSION_TIMEOUT" "180" = "180" → t = 180) := by
  have hr : ¬ reqRoute req ≠ "/convert" := by simp [hroute]
  have hn : ¬ n ≤ 0 := by omega
  refine ⟨?_, ?_, ?_, ?_⟩
  · simp only [doPost, if_neg hr, hcl, if_neg hn, hto, hproc]
  · simp only [doPost, if_neg hr, hcl, if_neg hn, hto, hproc, dirTrace]
  · simp only [doPost, if_neg hr, hcl, if_neg hn, hto, hproc, dirTrace]
  · intro hdef
    unfold timeoutVal at hto
    rw [hdef] at hto
    have h180 : pyInt "180" = some (180 : Int) := by decide
    rw [h180] at hto
    exact (Option.some.inj hto).symm

/-- C3 witness: a timed-out conversion of the sample request under the
default environment. -/
theorem c3_witness :
    reqRoute sampleReq = "/convert"
    ∧ contentLengthVal sampleReq = some 3
    ∧ (0 : Int) < 3
    ∧ timeoutVal [] = some 180
    ∧ timeoutWorld.proc = .timedOut
    ∧ ((doPost [] sampleReq timeoutWorld).1
        = .response (mkResponse 504 "application/json"
            (.text "\x7b\"error\":\"Conversion timeout\"\x7d"))
      ∧ (doPost [] sampleReq timeoutWorld).2.timeoutUsed = some 180
      ∧ (doPost [] sampleReq timeoutWorld).2.tmpdirCleaned = true
      ∧ (envGet [] "CALIBRE_CONVERSION_TIMEOUT" "180" = "180" → (180 : Int) = 180)) :=
  ⟨by decide, by decide, by decide, by decide, rfl,
    c3_timeout_504 [] sampleReq timeoutWorld 3 180 (by decide) (by decide)
      (by decide) (by decide) rfl⟩

/-- C6 counterexample: with a 500-character stderr the JSON error field is
the 18-character prefix `Converter failed: ` followed by 500 characters of
stderr — 518 characters in total, more than the 500 the claim allows. -/
theorem c6_counterexample :
    (doPost [] oneByteReq failWorld).1
      = .response (mkResponse 500 "application/json"
          (.text ("\x7b\"error\":\"" ++ converterFailedMsg errA500 ++ "\"\x7d")))
    ∧ 500 < (converterFailedMsg errA500).length := by
  constructor
  · rfl
  · decide

/-- C6 (amended): on nonzero converter exit the handler answers `500` whose
JSON error field is `Converter failed: ` followed by the first 500
characters of stderr with newlines replaced by spaces; the stderr excerpt
is at most 500 characters, so the whole field has at most 518 characters
( 18 for the prefix plus 500), and it contains no newline character. -/
theorem c6_amended (env : List (String × String)) (req : Request) (w : World)
    (n t rc : Int) (es : String)
    (hroute : reqRoute req = "/convert")
    (hcl : contentLengthVal req = some n) (hpos : 0 < n)
    (hto : timeoutVal env = some t)
    (hproc : w.proc = .completed rc es) (hrc : rc ≠ 0) :
    (doPost env req w).1 = .response (mkResponse 500 "application/json"
        (.text ("\x7b\"error\":\"" ++ converterFailedMsg es ++ "\"\x7d")))
    ∧ (converterFailedMsg es).length = 18 + min 500 es.toList.length
    ∧ (converterFailedMsg es).length ≤ 518
    ∧ ∀ c ∈ (converterFailedMsg es).toList, c ≠ '\n' := by
  have hr : ¬ reqRoute req ≠ "/convert" := by simp [hroute]
  have hn : ¬ n ≤ 0 := by omega
  refine ⟨?_, converterFailedMsg_len es, ?_, converterFailedMsg_no_nl es⟩
  · simp only [doPost, if_neg hr, hcl, if_neg hn, hto, hproc, if_pos hrc]
  · rw [converterFailedMsg_len es]
    omega

/-- C6 witness: a converter failing with exit code 2 and a two-line
stderr. -/
theorem c6_witness :
    reqRoute sampleReq = "/convert"
    ∧ contentLengthVal sampleReq = some 3
    ∧ (0 : Int) < 3
    ∧ timeoutVal [] = some 180
    ∧ nlWorld.proc = .completed 2 "boom\nsecond line"
    ∧ (2 : Int) ≠ 0
    ∧ ((doPost [] sampleReq nlWorld).1
        = .response (mkResponse 500 "application/json"
            (.text ("\x7b\"error\":\""
              ++ converterFailedMsg "boom\nsecond line" ++ "\"\x7d")))
      ∧ (converterFailedMsg "boom\nsecond line").length
          = 18 + min 500 ("boom\nsecond line").toList.length
      ∧ (converterFailedMsg "boom\nsecond line").length ≤ 518
      ∧ ∀ c ∈ (converterFailedMsg "boom\nsecond line").toList, c ≠ '\n') :=
  ⟨by decide, by decide, by decide, by decide, rfl, by decide,
    c6_amended [] sampleReq nlWorld 3 180 2 "boom\nsecond line" (by decide)
      (by decide) (by decide) (by decide) rfl (by decide)⟩

/-- C8: a `POST /convert` with declared length `n > 0` writes the request
body into `input.<from>` by reading chunks of at most 64 KiB, stopping once
`n` bytes are consumed or a read returns no data; whatever was read is
exactly what is in the input file (an initial segment of the delivered
bytes, never more than `n`), and when the stream delivers fully the file
holds exactly the first `n` bytes. -/
theorem c8_body_streaming (env : List (String × String)) (req : Request)
    (w : World) (n : Int)
    (hroute : reqRoute req = "/convert")
    (hcl : contentLengthVal req = some n) (hpos : 0 < n) :
    (doPost env req w).2.inputFile
      = some ("input." ++ sourceFmt req,
          (readBodyLoop req.readSched req.bodyData n.toNat).flatten)
    ∧ (∀ c ∈ readBodyLoop req.readSched req.bodyData n.toNat, c.length ≤ 65536)
    ∧ (∃ rest, (readBodyLoop req.readSched req.bodyData n.toNat).flatten ++ rest
          = req.bodyData)
    ∧ (readBodyLoop req.readSched req.bodyData n.toNat).flatten.length ≤ n.toNat
    ∧ ((∀ x ∈ req.readSched, 65536 ≤ x) → n.toNat ≤ req.bodyData.length →
        n.toNat ≤ 65536 * req.readSched.length →
        (readBodyLoop req.readSched req.bodyData n.toNat).flatten
          = req.bodyData.take n.toNat) := by
  have hr : ¬ reqRoute req ≠ "/convert" := by simp [hroute]
  have hn : ¬ n ≤ 0 := by omega
  refine ⟨?_, readBodyLoop_chunk_le _ _ _, readBodyLoop_flatten_pre _ _ _,
    readBodyLoop_flatten_len _ _ _,
    fun hs hd hn2 => readBodyLoop_complete _ _ _ hs hd hn2⟩
  simp only [doPost, if_neg hr, hcl, if_neg hn]
  cases htv : timeoutVal env
  all_goals cases hp : w.proc
  all_goals repeat' split
  all_goals simp [dirTrace]

/-- C8 witness: the sample request's three bytes are read in one chunk and
written to `input.txt`. -/
theorem c8_witness :
    reqRoute sampleReq = "/convert"
    ∧ contentLengthVal sampleReq = some 3
    ∧ (0 : Int) < 3
    ∧ ((doPost [] sampleReq sampleWorld).2.inputFile
        = some ("input." ++ sourceFmt sampleReq,
            (readBodyLoop sampleReq.readSched sampleReq.bodyData (3 : Int).toNat).flatten)
      ∧ (∀ c ∈ readBodyLoop sampleReq.readSched sampleReq.bodyData (3 : Int).toNat,
          c.length ≤ 65536)
      ∧ (∃ rest,
          (readBodyLoop sampleReq.readSched sampleReq.bodyData (3 : Int).toNat).flatten
            ++ rest = sampleReq.bodyData)
      ∧ (readBodyLoop sampleReq.readSched sampleReq.bodyData
            (3 : Int).toNat).flatten.length ≤ (3 : Int).toNat
      ∧ ((∀ x ∈ sampleReq.readSched, 65536 ≤ x)
          → (3 : Int).toNat ≤ sampleReq.bodyData.length
          → (3 : Int).toNat ≤ 65536 * sampleReq.readSched.length →
          (readBodyLoop sampleReq.readSched sampleReq.bodyData (3 : Int).toNat).flatten
            = sampleReq.bodyData.take (3 : Int).toNat)) :=
  ⟨by decide, by decide, by decide,
    c8_body_streaming [] sampleReq sampleWorld 3 (by decide) (by decide) (by decide)⟩

/-- C9 counterexample: the converter executable path and the timeout are
looked up in `os.environ` inside `do_POST` (lines 64 and 66), not fixed at
process start: two requests whose handling differs only in the
environment's value at request time invoke different executables and use
different timeouts. -/
theorem c9_counterexample :
    (doPost [] sampleReq sampleWorld).2.invokedCmd
        ≠ (doPost [("CALIBRE_EBOOK_CONVERT", "/opt/other-convert")]
            sampleReq sampleWorld).2.invokedCmd
    ∧ (doPost [] sampleReq sampleWorld).2.timeoutUsed
        ≠ (doPost [("CALIBRE_CONVERSION_TIMEOUT", "5")]
            sampleReq sampleWorld).2.timeoutUsed := by
  decide

/-- C9 (amended): only the listen port is read from the environment once at
module load (line 10); the converter executable path and the conversion
timeout are read from the environment anew inside each request's handling,
so the executable and timeout a request uses follow the environment's value
at request time. -/
theorem c9_amended (env : List (String × String)) (req : Request) (w : World)
    (n t : Int)
    (hroute : reqRoute req = "/convert")
    (hcl : contentLengthVal req = some n) (hpos : 0 < n)
    (hto : timeoutVal env = some t) :
    (doPost env req w).2.invokedCmd
      = some [converterExe env, "input." ++ sourceFmt req, "output." ++ targetFmt req]
    ∧ (doPost env req w).2.timeoutUsed = some t := by
  have hr : ¬ reqRoute req ≠ "/convert" := by simp [hroute]
  have hn : ¬ n ≤ 0 := by omega
  constructor
  all_goals simp only [doPost, if_neg hr, hcl, if_neg hn, hto]
  all_goals cases hp : w.proc
  all_goals repeat' split
  all_goals simp [dirTrace]

/-- C9 witness: under an environment carrying both variables, the sample
request invokes that executable with that timeout. -/
theorem c9_witness :
    reqRoute sampleReq = "/convert"
    ∧ contentLengthVal sampleReq = some 3
    ∧ (0 : Int) < 3
    ∧ timeoutVal [("CALIBRE_EBOOK_CONVERT", "/usr/local/bin/ec"),
        ("CALIBRE_CONVERSION_TIMEOUT", "60")] = some 60
    ∧ ((doPost [("CALIBRE_EBOOK_CONVERT", "/usr/local/bin/ec"),
          ("CALIBRE_CONVERSION_TIMEOUT", "60")] sampleReq sampleWorld).2.invokedCmd
        = some [converterExe [("CALIBRE_EBOOK_CONVERT", "/usr/local/bin/ec"),
            ("CALIBRE_CONVERSION_TIMEOUT", "60")],
            "input." ++ sourceFmt sampleReq, "output." ++ targetFmt sampleReq]
      ∧ (doPost [("CALIBRE_EBOOK_CONVERT", "/usr/local/bin/ec"),
          ("CALIBRE_CONVERSION_TIMEOUT", "60")] sampleReq sampleWorld).2.timeoutUsed
        = some 60) :=
  ⟨by decide, by decide, by decide, by decide,
    c9_amended [("CALIBRE_EBOOK_CONVERT", "/usr/local/bin/ec"),
        ("CALIBRE_CONVERSION_TIMEOUT", "60")] sampleReq sampleWorld 3 60
      (by decide) (by decide) (by decide) (by decide)⟩

end CalibreSvc
